import Mathlib

/-
Verification of the KBFS remote block-server client (libkbfs).

The development shallowly embeds `bserver_remote.go` (the `BlockServerRemote`
methods `Get`, `Put`, `AddBlockReference`, `RemoveBlockReference`, `OnConnect`,
`ShouldThrottle`) and the server-selection logic (`useLocalMDServer`,
`makeMDServer`, `makeBlockServer`).

Bytes are modelled as `Nat`, byte slices and fixed-size byte arrays as
`List Nat`.  Each RPC client is a plain function from the request structure
to the reply; an embedded method returns the list of RPC requests it issued
together with its Go return values, so that "exactly one RPC was issued
carrying these fields" is a provable statement.
-/

set_option autoImplicit false

namespace Libkbfs

/-- Modelled from the spec: user identifiers (`keybase1.UID`) are opaque
strings supplied by the identity collaborator. -/
abbrev UID := String

/-- Semantics of Go's builtin `copy(dst, src)` on byte slices: the first
`min (dst.length) (src.length)` bytes of `dst` are replaced by those of
`src`; the remainder of `dst` is unchanged.  The result is the new contents
of `dst`. -/
def goCopy (dst src : List Nat) : List Nat :=
  src.take (min dst.length src.length) ++ dst.drop (min dst.length src.length)

theorem goCopy_eq_of_length (dst src : List Nat) (h : dst.length = src.length) :
    goCopy dst src = src := by
  unfold goCopy
  rw [h, Nat.min_self, List.take_length, ← h, List.drop_length, List.append_nil]

theorem goCopy_replicate_zero (n : Nat) (src : List Nat) :
    goCopy (List.replicate n 0) src =
      src.take n ++ List.replicate (n - src.length) 0 := by
  unfold goCopy
  rw [List.length_replicate, List.drop_replicate]
  rcases Nat.le_total n src.length with h | h
  · rw [Nat.min_eq_left h, Nat.sub_eq_zero_of_le h]
    simp
  · rw [Nat.min_eq_right h, List.take_length, List.take_of_length_le h]

theorem goCopy_length (dst src : List Nat) :
    (goCopy dst src).length = dst.length := by
  unfold goCopy
  simp only [List.length_append, List.length_take, List.length_drop]
  omega

/-- Errors of Go's `encoding/hex` package: `ErrLength` for an odd-length
input, `InvalidByteError` (carrying the offending byte) for a non-hex
character. -/
inductive HexError where
  | errLength
  | invalidByte (b : Nat)
deriving DecidableEq

/-- `fromHexChar` of `encoding/hex`: the value of one hex digit. -/
def fromHexChar (c : Char) : Option Nat :=
  if 48 ≤ c.toNat ∧ c.toNat ≤ 57 then some (c.toNat - 48)
  else if 97 ≤ c.toNat ∧ c.toNat ≤ 102 then some (c.toNat - 97 + 10)
  else if 65 ≤ c.toNat ∧ c.toNat ≤ 70 then some (c.toNat - 65 + 10)
  else none

/-- Decoding loop of `hex.Decode`: consume the characters two at a time,
failing on the first character that is not a hex digit. -/
def hexDecodePairs : List Char → Except HexError (List Nat)
  | [] => .ok []
  | [_] => .error .errLength
  | a :: b :: rest =>
    match fromHexChar a with
    | none => .error (.invalidByte a.toNat)
    | some ha =>
      match fromHexChar b with
      | none => .error (.invalidByte b.toNat)
      | some hb =>
        match hexDecodePairs rest with
        | .error e => .error e
        | .ok tl => .ok ((ha * 16 + hb) :: tl)

/-- `hex.DecodeString`: fails with `ErrLength` on odd-length input, with
`InvalidByteError` on the first non-hex character, and otherwise yields the
decoded bytes. -/
def hexDecodeString (s : String) : Except HexError (List Nat) :=
  if s.length % 2 == 1 then .error .errLength
  else hexDecodePairs s.data

/-- Hex digit character of a value below 16 (lower case, as produced by
`hex.EncodeToString`). -/
def hexDigit (n : Nat) : Char :=
  if n < 10 then Char.ofNat (48 + n) else Char.ofNat (87 + n)

/-- `hex.EncodeToString`: two lower-case hex digits per byte. -/
def hexEncode (l : List Nat) : String :=
  ⟨(l.map (fun b => [hexDigit (b / 16 % 16), hexDigit (b % 16)])).flatten⟩

/-- `BlockID` is an immutable content hash; `hash` stands for its rendered
form, so that `BlockID.String` is injective on the model as the hash
rendering is on the code. -/
structure BlockID where
  hash : String
deriving DecidableEq

/-- `id.String()` on a `BlockID`. -/
def BlockID.String (id : BlockID) : String := id.hash

/-- `TlfID` identifies the folder a block write belongs to. -/
structure TlfID where
  idStr : String
deriving DecidableEq

/-- `tlfID.String()` on a `TlfID`. -/
def TlfID.String (id : TlfID) : String := id.idStr

/-- Modelled from the spec: the reference nonce is an 8-byte value
(`BlockRefNonce`, a Go `[8]byte`). -/
structure BlockRefNonce where
  bytes : List Nat
  len8 : bytes.length = 8

/-- Modelled from the spec: `BlockContext` is the triple
`{creator: UserID, writer: UserID, refNonce: 8-byte value}` with accessors
`GetCreator`, `GetWriter` and `GetRefNonce`. -/
structure BlockContext where
  creator : UID
  writer : UID
  refNonce : BlockRefNonce

def BlockContext.GetWriter (c : BlockContext) : UID := c.writer

def BlockContext.GetCreator (c : BlockContext) : UID := c.creator

def BlockContext.GetRefNonce (c : BlockContext) : BlockRefNonce := c.refNonce

/-- Size in bytes of the server half of a block key (`[32]byte` in the
implementation; the spec calls it "opaque fixed-size key material"). -/
def serverHalfSize : Nat := 32

/-- `BlockCryptKeyServerHalf` holds the fixed-size server half; its Go zero
value is the all-zero array. -/
structure BlockCryptKeyServerHalf where
  serverHalf : List Nat
deriving DecidableEq

/-- The Go zero value `BlockCryptKeyServerHalf{}`. -/
def BlockCryptKeyServerHalf.zero : BlockCryptKeyServerHalf :=
  ⟨List.replicate serverHalfSize 0⟩

/-- Modelled from the spec: the wire/string form of the server half is its
hex encoding ("server-half key (hex-encoded)"). -/
def BlockCryptKeyServerHalf.String (k : BlockCryptKeyServerHalf) : String :=
  hexEncode k.serverHalf

/-- Modelled from the spec: the error taxonomy seen by the block client —
`NotFound`, `PermissionDenied`, `QuotaExceeded`, the distinguished
server-throttle kind (`BServerErrorThrottle`), `ConnectionError`, `Canceled`,
and the `encoding/hex` decode errors, which are the `Malformed` class. -/
inductive Err where
  | notFound
  | permissionDenied
  | quotaExceeded
  | bServerErrorThrottle
  | connectionError
  | canceled
  | hexErr (e : HexError)
deriving DecidableEq

/-- The `Malformed` class: exactly the `encoding/hex` decode errors. -/
def Err.isMalformed : Err → Bool
  | .hexErr _ => true
  | _ => false

/-- The transport (connection-level) class. -/
def Err.isConnectionLevel : Err → Bool
  | .connectionError => true
  | _ => false

/-- The not-found class. -/
def Err.isNotFound : Err → Bool
  | .notFound => true
  | _ => false

/-- `keybase1.BlockIdCombo`. -/
structure BlockIdCombo where
  blockHash : String
  chargedTo : UID
deriving DecidableEq

/-- Reply of the `GetBlock` RPC: ciphertext bytes and the hex-encoded
server-half key string. -/
structure GetBlockRes where
  buf : List Nat
  blockKey : String
deriving DecidableEq

/-- `keybase1.PutBlockArg`. -/
structure PutBlockArg where
  bid : BlockIdCombo
  blockKey : String
  folder : String
  buf : List Nat
deriving DecidableEq

/-- `keybase1.IncBlockReferenceArg`; `nonce` is a Go `[8]byte`. -/
structure IncBlockReferenceArg where
  bid : BlockIdCombo
  nonce : List Nat
  folder : String
  chargedTo : UID
deriving DecidableEq

/-- `keybase1.DecBlockReferenceArg`; `nonce` is a Go `[8]byte`. -/
structure DecBlockReferenceArg where
  bid : BlockIdCombo
  nonce : List Nat
  folder : String
  chargedTo : UID
deriving DecidableEq

/-- `keybase1.EstablishSessionArg`: the current user ID and session token. -/
structure EstablishSessionArg where
  user : UID
  sid : String
deriving DecidableEq

/-- The RPC surface of `keybase1.BlockClient`, one function per wire call; a
`none` result is Go's nil error. -/
structure BlockClient where
  getBlock : BlockIdCombo → Except Err GetBlockRes
  putBlock : PutBlockArg → Option Err
  incBlockReference : IncBlockReferenceArg → Option Err
  decBlockReference : DecBlockReferenceArg → Option Err
  establishSession : EstablishSessionArg → Option Err

/-- The Go return values of `BlockServerRemote.Get`:
`([]byte, BlockCryptKeyServerHalf, error)`, with `buf = none` for a nil
slice. -/
structure GetResult where
  buf : Option (List Nat)
  key : BlockCryptKeyServerHalf
  err : Option Err
deriving DecidableEq

/-- `BlockServerRemote.Get`: builds a `BlockIdCombo` from the block ID's
string form and `ctx.GetWriter()`, issues `GetBlock`, and on success
hex-decodes the reply's key string into a zero-initialized
`BlockCryptKeyServerHalf` via `copy`.  The first component lists the issued
requests in order. -/
def BlockServerRemote.Get (client : BlockClient) (id : BlockID)
    (ctx : BlockContext) : List BlockIdCombo × GetResult :=
  let bid : BlockIdCombo :=
    { blockHash := id.String, chargedTo := ctx.GetWriter }
  match client.getBlock bid with
  | .error e => ([bid], { buf := none, key := BlockCryptKeyServerHalf.zero, err := some e })
  | .ok res =>
    match hexDecodeString res.blockKey with
    | .error e =>
      ([bid], { buf := none, key := BlockCryptKeyServerHalf.zero, err := some (.hexErr e) })
    | .ok kbuf =>
      ([bid],
       { buf := some res.buf,
         key := ⟨goCopy BlockCryptKeyServerHalf.zero.serverHalf kbuf⟩,
         err := none })

/-- `BlockServerRemote.Put`: issues one `PutBlock` RPC carrying
`(chargedTo = ctx.GetWriter(), blockHash = id.String())`, the server half's
string encoding, the folder's string form and the ciphertext, and returns
the RPC's error. -/
def BlockServerRemote.Put (client : BlockClient) (id : BlockID) (tlfID : TlfID)
    (ctx : BlockContext) (buf : List Nat)
    (serverHalf : BlockCryptKeyServerHalf) : List PutBlockArg × Option Err :=
  let arg : PutBlockArg :=
    { bid := { chargedTo := ctx.GetWriter, blockHash := id.String }
      blockKey := serverHalf.String
      folder := tlfID.String
      buf := buf }
  ([arg], client.putBlock arg)

/-- `BlockServerRemote.AddBlockReference`: issues one `IncBlockReference`
RPC whose combo charges `ctx.GetCreator()` and whose top-level `chargedTo`
is `ctx.GetWriter()`; the nonce field starts as the zero array and receives
`ctx.GetRefNonce()` via `copy`. -/
def BlockServerRemote.AddBlockReference (client : BlockClient) (id : BlockID)
    (tlfID : TlfID) (ctx : BlockContext) : List IncBlockReferenceArg × Option Err :=
  let arg : IncBlockReferenceArg :=
    { bid := { chargedTo := ctx.GetCreator, blockHash := id.String }
      folder := tlfID.String
      chargedTo := ctx.GetWriter
      nonce := goCopy (List.replicate 8 0) ctx.GetRefNonce.bytes }
  ([arg], client.incBlockReference arg)

/-- `BlockServerRemote.RemoveBlockReference`: issues one `DecBlockReference`
RPC built exactly like the increment's argument. -/
def BlockServerRemote.RemoveBlockReference (client : BlockClient) (id : BlockID)
    (tlfID : TlfID) (ctx : BlockContext) : List DecBlockReferenceArg × Option Err :=
  let arg : DecBlockReferenceArg :=
    { bid := { chargedTo := ctx.GetCreator, blockHash := id.String }
      folder := tlfID.String
      chargedTo := ctx.GetWriter
      nonce := goCopy (List.replicate 8 0) ctx.GetRefNonce.bytes }
  ([arg], client.decBlockReference arg)

/-- `BlockServerRemote.ShouldThrottle`: nil errors never throttle; otherwise
the type assertion `err.(BServerErrorThrottle)` decides. -/
def BlockServerRemote.ShouldThrottle (err : Option Err) : Bool :=
  match err with
  | none => false
  | some e =>
    match e with
    | .bServerErrorThrottle => true
    | _ => false

/-- The identity collaborator (`KBPKI`) as seen by `OnConnect`: the current
session token and current user ID lookups, each of which may fail. -/
structure KBPKI where
  getCurrentToken : Except Err String
  getCurrentUID : Except Err UID

/-- `runUnlessCanceled`: yields the `Canceled` error when the caller's
context is canceled, and the wrapped call's result otherwise. -/
def runUnlessCanceled (canceled : Bool) (r : Option Err) : Option Err :=
  if canceled then some .canceled else r

/-- `BlockServerRemote.OnConnect`: looks up the session token, then the user
ID, returning the first failure without issuing any RPC; on success issues
exactly one `EstablishSession` RPC carrying both, under
`runUnlessCanceled`.  The first component lists the issued
`EstablishSession` requests in order. -/
def BlockServerRemote.OnConnect (canceled : Bool) (kbpki : KBPKI)
    (client : BlockClient) : List EstablishSessionArg × Option Err :=
  match kbpki.getCurrentToken with
  | .error e => ([], some e)
  | .ok token =>
    match kbpki.getCurrentUID with
    | .error e => ([], some e)
    | .ok uid =>
      let arg : EstablishSessionArg := { user := uid, sid := token }
      ([arg], runUnlessCanceled canceled (client.establishSession arg))

/-- The environment variables read by the server-selection code. -/
structure Env where
  mdServerAddr : String
  bServerAddr : String

/-- `getMDServerAddr`: reads `EnvMDServerAddr` (empty when unset). -/
def getMDServerAddr (env : Env) : String := env.mdServerAddr

/-- `useLocalMDServer`: the remote MD address is absent. -/
def useLocalMDServer (env : Env) : Bool := (getMDServerAddr env).length == 0

/-- `filepath.Join` restricted to the two-argument, already-clean case that
the selection code uses. -/
def filepathJoin (dir name : String) : String := dir ++ "/" ++ name

/-- Which MD server `makeMDServer` constructs. -/
inductive MDServerChoice where
  | memory
  | localDisk (handlePath mdPath revPath : String)
  | remote (addr : String)
deriving DecidableEq

/-- `makeMDServer`: in-memory when no server root directory is given; local
persistent when the MD address is absent; remote at the MD address
otherwise. -/
def makeMDServer (env : Env) (serverRootDir : Option String) : MDServerChoice :=
  match serverRootDir with
  | none => .memory
  | some dir =>
    if useLocalMDServer env then
      .localDisk (filepathJoin dir "kbfs_handles") (filepathJoin dir "kbfs_md")
        (filepathJoin dir "kbfs_revisions")
    else
      .remote (getMDServerAddr env)

/-- Which block server `makeBlockServer` constructs. -/
inductive BlockServerChoice where
  | memory
  | localDisk (blockPath : String)
  | remote (addr : String)
deriving DecidableEq

/-- `makeBlockServer`: decided solely by `EnvBServerAddr` — in-memory or
local on-disk when that address is absent, remote at that address
otherwise. -/
def makeBlockServer (env : Env) (serverRootDir : Option String) : BlockServerChoice :=
  if env.bServerAddr.length == 0 then
    match serverRootDir with
    | none => .memory
    | some dir => .localDisk (filepathJoin dir "kbfs_block")
  else
    .remote env.bServerAddr

/-- The issued `GetBlock` requests are always exactly the one combo built
from the block ID's string form and the context's writer. -/
theorem get_calls (client : BlockClient) (id : BlockID) (ctx : BlockContext) :
    (BlockServerRemote.Get client id ctx).1 =
      [{ blockHash := id.String, chargedTo := ctx.GetWriter }] := by
  rcases h : client.getBlock { blockHash := id.String, chargedTo := ctx.GetWriter } with e | res
  · simp [BlockServerRemote.Get, h]
  · rcases h2 : hexDecodeString res.blockKey with e2 | kbuf <;>
      simp [BlockServerRemote.Get, h, h2]

/-- An all-zero reference nonce. -/
def sampleNonce : BlockRefNonce := ⟨List.replicate 8 0, by simp⟩

/-- A concrete block context for witnesses. -/
def sampleCtx : BlockContext :=
  { creator := "creator", writer := "writer", refNonce := sampleNonce }

/-- A concrete block ID for witnesses. -/
def sampleId : BlockID := { hash := "blockid" }

/-- A concrete folder ID for witnesses. -/
def sampleTlf : TlfID := { idStr := "tlf" }

/-- A client whose every RPC succeeds trivially except `GetBlock`, which
fails with `NotFound`. -/
def sampleClient : BlockClient :=
  { getBlock := fun _ => .error Err.notFound
    putBlock := fun _ => none
    incBlockReference := fun _ => none
    decBlockReference := fun _ => none
    establishSession := fun _ => none }

/-- C1: when the `GetBlock` RPC succeeds but the returned server-half key
string fails hex decoding, `Get` fails with that decode error — a
`Malformed`-class error, distinct from the transport class and from the
not-found class. -/
theorem C1_get_malformed (client : BlockClient) (id : BlockID)
    (ctx : BlockContext) (res : GetBlockRes) (e : HexError)
    (hok : client.getBlock { blockHash := id.String, chargedTo := ctx.GetWriter } = .ok res)
    (hhex : hexDecodeString res.blockKey = .error e) :
    (BlockServerRemote.Get client id ctx).2.err = some (Err.hexErr e) ∧
    (Err.hexErr e).isMalformed = true ∧
    (Err.hexErr e).isConnectionLevel = false ∧
    (Err.hexErr e).isNotFound = false := by
  refine ⟨?_, rfl, rfl, rfl⟩
  simp [BlockServerRemote.Get, hok, hhex]

/-- A client whose `GetBlock` reply carries a key string that is not hex. -/
def C1client : BlockClient :=
  { sampleClient with getBlock := fun _ => .ok { buf := [], blockKey := "zz" } }

theorem C1_get_malformed_witness :
    (BlockServerRemote.Get C1client sampleId sampleCtx).2.err =
      some (Err.hexErr (HexError.invalidByte 122)) ∧
    (Err.hexErr (HexError.invalidByte 122)).isMalformed = true ∧
    (Err.hexErr (HexError.invalidByte 122)).isConnectionLevel = false ∧
    (Err.hexErr (HexError.invalidByte 122)).isNotFound = false :=
  C1_get_malformed C1client sampleId sampleCtx
    { buf := [], blockKey := "zz" } (HexError.invalidByte 122) rfl rfl

/-- C3: the increment and decrement requests carry the context's reference
nonce byte-for-byte, charge quota to the context's writer at top level, and
attribute the block-id combo to the context's creator. -/
theorem C3_reference_args (client : BlockClient) (id : BlockID)
    (tlfID : TlfID) (ctx : BlockContext) :
    (BlockServerRemote.AddBlockReference client id tlfID ctx).1.length = 1 ∧
    (∀ arg ∈ (BlockServerRemote.AddBlockReference client id tlfID ctx).1,
      arg.nonce = ctx.refNonce.bytes ∧ arg.chargedTo = ctx.writer ∧
      arg.bid.chargedTo = ctx.creator) ∧
    (BlockServerRemote.RemoveBlockReference client id tlfID ctx).1.length = 1 ∧
    (∀ arg ∈ (BlockServerRemote.RemoveBlockReference client id tlfID ctx).1,
      arg.nonce = ctx.refNonce.bytes ∧ arg.chargedTo = ctx.writer ∧
      arg.bid.chargedTo = ctx.creator) := by
  have hn : goCopy (List.replicate 8 0) ctx.GetRefNonce.bytes = ctx.refNonce.bytes := by
    have h8 : (List.replicate 8 (0 : Nat)).length = ctx.GetRefNonce.bytes.length := by
      rw [List.length_replicate, BlockContext.GetRefNonce, ctx.refNonce.len8]
    rw [goCopy_eq_of_length _ _ h8, BlockContext.GetRefNonce]
  refine ⟨rfl, ?_, rfl, ?_⟩
  · intro arg harg
    simp [BlockServerRemote.AddBlockReference] at harg
    subst harg
    exact ⟨hn, rfl, rfl⟩
  · intro arg harg
    simp [BlockServerRemote.RemoveBlockReference] at harg
    subst harg
    exact ⟨hn, rfl, rfl⟩

/-- The increment request that `sampleClient`, `sampleId`, `sampleTlf` and
`sampleCtx` produce. -/
def sampleIncArg : IncBlockReferenceArg :=
  { bid := { chargedTo := "creator", blockHash := "blockid" }
    folder := "tlf"
    chargedTo := "writer"
    nonce := List.replicate 8 0 }

theorem C3_reference_args_witness :
    sampleIncArg.nonce = sampleCtx.refNonce.bytes ∧
    sampleIncArg.chargedTo = sampleCtx.writer ∧
    sampleIncArg.bid.chargedTo = sampleCtx.creator :=
  (C3_reference_args sampleClient sampleId sampleTlf sampleCtx).2.1
    sampleIncArg (by decide)

/-- C4: `OnConnect` returns a failed token lookup or a failed user-ID lookup
directly, issuing no RPC; when both lookups succeed it issues exactly one
`EstablishSession` carrying that user ID and token, and returns its
result. -/
theorem C4_onConnect (client : BlockClient) (canceled : Bool) :
    (∀ e uidRes, BlockServerRemote.OnConnect canceled
        { getCurrentToken := .error e, getCurrentUID := uidRes } client = ([], some e)) ∧
    (∀ t e, BlockServerRemote.OnConnect canceled
        { getCurrentToken := .ok t, getCurrentUID := .error e } client = ([], some e)) ∧
    (∀ t u, BlockServerRemote.OnConnect canceled
        { getCurrentToken := .ok t, getCurrentUID := .ok u } client =
      ([{ user := u, sid := t }],
        runUnlessCanceled canceled (client.establishSession { user := u, sid := t }))) :=
  ⟨fun _ _ => rfl, fun _ _ => rfl, fun _ _ => rfl⟩

theorem C4_onConnect_witness :
    BlockServerRemote.OnConnect false
      { getCurrentToken := .ok "token", getCurrentUID := .ok "uid" } sampleClient =
    ([{ user := "uid", sid := "token" }],
      runUnlessCanceled false (sampleClient.establishSession { user := "uid", sid := "token" })) :=
  (C4_onConnect sampleClient false).2.2 "token" "uid"

/-- C5: `ShouldThrottle` holds exactly on the distinguished server-throttle
error; it is false on a nil error and on every connection-level or
store-semantic error. -/
theorem C5_shouldThrottle (e : Option Err) :
    (BlockServerRemote.ShouldThrottle e = true ↔ e = some Err.bServerErrorThrottle) ∧
    BlockServerRemote.ShouldThrottle none = false ∧
    BlockServerRemote.ShouldThrottle (some Err.connectionError) = false ∧
    BlockServerRemote.ShouldThrottle (some Err.notFound) = false ∧
    BlockServerRemote.ShouldThrottle (some Err.permissionDenied) = false ∧
    BlockServerRemote.ShouldThrottle (some Err.quotaExceeded) = false := by
  refine ⟨?_, rfl, rfl, rfl, rfl, rfl⟩
  match e with
  | none => simp [BlockServerRemote.ShouldThrottle]
  | some e2 => cases e2 <;> simp [BlockServerRemote.ShouldThrottle]

theorem C5_shouldThrottle_witness :
    (BlockServerRemote.ShouldThrottle (some Err.bServerErrorThrottle) = true ↔
      some Err.bServerErrorThrottle = some Err.bServerErrorThrottle) ∧
    BlockServerRemote.ShouldThrottle none = false ∧
    BlockServerRemote.ShouldThrottle (some Err.connectionError) = false ∧
    BlockServerRemote.ShouldThrottle (some Err.notFound) = false ∧
    BlockServerRemote.ShouldThrottle (some Err.permissionDenied) = false ∧
    BlockServerRemote.ShouldThrottle (some Err.quotaExceeded) = false :=
  C5_shouldThrottle (some Err.bServerErrorThrottle)

/-- A client whose `GetBlock` reply carries a 1-byte (2-hex-digit) key
string. -/
def C6client : BlockClient :=
  { sampleClient with getBlock := fun _ => .ok { buf := [1, 2], blockKey := "ff" } }

/-- C6 counterexample: a reply whose key string hex-decodes to a single byte
makes `Get` succeed with a key whose bytes are NOT the hex-decoding `[255]`
of that string — the decoded byte is copied into the fixed-size (32-byte)
server half, so the remaining bytes are zero. -/
theorem C6_counterexample :
    hexDecodeString "ff" = Except.ok [255] ∧
    (BlockServerRemote.Get C6client sampleId sampleCtx).2.err = none ∧
    (BlockServerRemote.Get C6client sampleId sampleCtx).2.buf = some [1, 2] ∧
    (BlockServerRemote.Get C6client sampleId sampleCtx).2.key.serverHalf ≠ [255] := by
  exact ⟨rfl, rfl, rfl, by decide⟩

/-- C6 (amended): when the `GetBlock` RPC succeeds and the key string
hex-decodes, `Get` returns exactly the reply's ciphertext bytes and a key
whose bytes are the hex-decoding copied into the fixed server-half size
(truncated if longer, zero-padded if shorter); the single request issued
carried the block ID's string form and `chargedTo = ctx.writer`. -/
theorem C6_get_success (client : BlockClient) (id : BlockID)
    (ctx : BlockContext) (res : GetBlockRes) (kbuf : List Nat)
    (hok : client.getBlock { blockHash := id.String, chargedTo := ctx.GetWriter } = .ok res)
    (hhex : hexDecodeString res.blockKey = .ok kbuf) :
    BlockServerRemote.Get client id ctx =
      ([{ blockHash := id.String, chargedTo := ctx.writer }],
       { buf := some res.buf,
         key := ⟨kbuf.take serverHalfSize ++ List.replicate (serverHalfSize - kbuf.length) 0⟩,
         err := none }) := by
  have hok2 : client.getBlock { blockHash := id.String, chargedTo := ctx.writer } =
      .ok res := hok
  simp [BlockServerRemote.Get, hok2, hhex, BlockCryptKeyServerHalf.zero,
    goCopy_replicate_zero, BlockContext.GetWriter]

/-- A client whose `GetBlock` reply carries a 2-byte key string. -/
def C6okClient : BlockClient :=
  { sampleClient with getBlock := fun _ => .ok { buf := [7], blockKey := "abcd" } }

theorem C6_get_success_witness :
    BlockServerRemote.Get C6okClient sampleId sampleCtx =
      ([{ blockHash := sampleId.String, chargedTo := sampleCtx.writer }],
       { buf := some [7],
         key := ⟨[171, 205].take serverHalfSize ++
           List.replicate (serverHalfSize - [171, 205].length) 0⟩,
         err := none }) :=
  C6_get_success C6okClient sampleId sampleCtx
    { buf := [7], blockKey := "abcd" } [171, 205] rfl rfl

/-- C7: `Put` issues exactly one `PutBlock` RPC carrying the folder ID's
string form, the server half's string encoding, the ciphertext unchanged,
the block ID's string form, `chargedTo = ctx.writer`, and returns exactly
that RPC's result. -/
theorem C7_put_request (client : BlockClient) (id : BlockID) (tlfID : TlfID)
    (ctx : BlockContext) (buf : List Nat) (serverHalf : BlockCryptKeyServerHalf) :
    (BlockServerRemote.Put client id tlfID ctx buf serverHalf).1.length = 1 ∧
    ∀ arg ∈ (BlockServerRemote.Put client id tlfID ctx buf serverHalf).1,
      arg.folder = tlfID.String ∧
      arg.blockKey = serverHalf.String ∧
      arg.buf = buf ∧
      arg.bid.blockHash = id.String ∧
      arg.bid.chargedTo = ctx.writer ∧
      (BlockServerRemote.Put client id tlfID ctx buf serverHalf).2 = client.putBlock arg := by
  refine ⟨rfl, ?_⟩
  intro arg harg
  simp [BlockServerRemote.Put] at harg
  subst harg
  exact ⟨rfl, rfl, rfl, rfl, rfl, rfl⟩

/-- The store request that the sample inputs and an all-zero server half
produce. -/
def samplePutArg : PutBlockArg :=
  { bid := { chargedTo := "writer", blockHash := "blockid" }
    blockKey := BlockCryptKeyServerHalf.zero.String
    folder := "tlf"
    buf := [1, 2, 3] }

theorem C7_put_request_witness :
    samplePutArg.folder = sampleTlf.String ∧
    samplePutArg.blockKey = BlockCryptKeyServerHalf.zero.String ∧
    samplePutArg.buf = [1, 2, 3] ∧
    samplePutArg.bid.blockHash = sampleId.String ∧
    samplePutArg.bid.chargedTo = sampleCtx.writer ∧
    (BlockServerRemote.Put sampleClient sampleId sampleTlf sampleCtx [1, 2, 3]
      BlockCryptKeyServerHalf.zero).2 = sampleClient.putBlock samplePutArg :=
  (C7_put_request sampleClient sampleId sampleTlf sampleCtx [1, 2, 3]
    BlockCryptKeyServerHalf.zero).2 samplePutArg (by decide)

/-- C8: each of the four operations issues exactly one RPC, and any error
that RPC produces is returned to the caller unchanged. -/
theorem C8_single_rpc (client : BlockClient) (id : BlockID) (tlfID : TlfID)
    (ctx : BlockContext) (buf : List Nat) (serverHalf : BlockCryptKeyServerHalf) :
    (BlockServerRemote.Get client id ctx).1.length = 1 ∧
    (∀ e, client.getBlock { blockHash := id.String, chargedTo := ctx.GetWriter } = .error e →
      (BlockServerRemote.Get client id ctx).2.err = some e) ∧
    (BlockServerRemote.Put client id tlfID ctx buf serverHalf).1.length = 1 ∧
    (∀ arg ∈ (BlockServerRemote.Put client id tlfID ctx buf serverHalf).1,
      (BlockServerRemote.Put client id tlfID ctx buf serverHalf).2 = client.putBlock arg) ∧
    (BlockServerRemote.AddBlockReference client id tlfID ctx).1.length = 1 ∧
    (∀ arg ∈ (BlockServerRemote.AddBlockReference client id tlfID ctx).1,
      (BlockServerRemote.AddBlockReference client id tlfID ctx).2 =
        client.incBlockReference arg) ∧
    (BlockServerRemote.RemoveBlockReference client id tlfID ctx).1.length = 1 ∧
    (∀ arg ∈ (BlockServerRemote.RemoveBlockReference client id tlfID ctx).1,
      (BlockServerRemote.RemoveBlockReference client id tlfID ctx).2 =
        client.decBlockReference arg) := by
  refine ⟨?_, ?_, rfl, ?_, rfl, ?_, rfl, ?_⟩
  · rw [get_calls]
    rfl
  · intro e he
    simp [BlockServerRemote.Get, he]
  · intro arg harg
    simp [BlockServerRemote.Put] at harg
    subst harg
    rfl
  · intro arg harg
    simp [BlockServerRemote.AddBlockReference] at harg
    subst harg
    rfl
  · intro arg harg
    simp [BlockServerRemote.RemoveBlockReference] at harg
    subst harg
    rfl

theorem C8_single_rpc_witness :
    (BlockServerRemote.Get sampleClient sampleId sampleCtx).2.err = some Err.notFound :=
  (C8_single_rpc sampleClient sampleId sampleTlf sampleCtx []
    BlockCryptKeyServerHalf.zero).2.1 Err.notFound rfl

/-- C9: a key string that is valid hex never makes `Get` fail, whatever
length it decodes to: `Get` succeeds with a key of exactly the fixed
server-half size whose bytes are the decoded bytes truncated to that size
and zero-padded past the decoded length. -/
theorem C9_hex_length_irrelevant (client : BlockClient) (id : BlockID)
    (ctx : BlockContext) (res : GetBlockRes) (kbuf : List Nat)
    (hok : client.getBlock { blockHash := id.String, chargedTo := ctx.GetWriter } = .ok res)
    (hhex : hexDecodeString res.blockKey = .ok kbuf) :
    (BlockServerRemote.Get client id ctx).2.err = none ∧
    (BlockServerRemote.Get client id ctx).2.buf = some res.buf ∧
    (BlockServerRemote.Get client id ctx).2.key.serverHalf.length = serverHalfSize ∧
    (BlockServerRemote.Get client id ctx).2.key.serverHalf =
      kbuf.take serverHalfSize ++ List.replicate (serverHalfSize - kbuf.length) 0 := by
  have hget : (BlockServerRemote.Get client id ctx).2 =
      { buf := some res.buf,
        key := ⟨goCopy BlockCryptKeyServerHalf.zero.serverHalf kbuf⟩,
        err := none } := by
    simp [BlockServerRemote.Get, hok, hhex]
  rw [hget]
  refine ⟨rfl, rfl, ?_, ?_⟩
  · rw [goCopy_length]
    simp [BlockCryptKeyServerHalf.zero]
  · rw [BlockCryptKeyServerHalf.zero, goCopy_replicate_zero]

/-- A client whose `GetBlock` reply carries a 2-byte key string, for the C9
witness. -/
def C9client : BlockClient :=
  { sampleClient with getBlock := fun _ => .ok { buf := [9], blockKey := "00ff" } }

theorem C9_hex_length_irrelevant_witness :
    (BlockServerRemote.Get C9client sampleId sampleCtx).2.err = none ∧
    (BlockServerRemote.Get C9client sampleId sampleCtx).2.buf = some [9] ∧
    (BlockServerRemote.Get C9client sampleId sampleCtx).2.key.serverHalf.length =
      serverHalfSize ∧
    (BlockServerRemote.Get C9client sampleId sampleCtx).2.key.serverHalf =
      [0, 255].take serverHalfSize ++ List.replicate (serverHalfSize - [0, 255].length) 0 :=
  C9_hex_length_irrelevant C9client sampleId sampleCtx
    { buf := [9], blockKey := "00ff" } [0, 255] rfl rfl

/-- C10: whenever `Get` returns a non-nil error — from the RPC or from key
decoding — it returns a nil byte slice and the zero-valued server half,
never a partial result. -/
theorem C10_no_partial_result (client : BlockClient) (id : BlockID)
    (ctx : BlockContext) (e : Err)
    (h : (BlockServerRemote.Get client id ctx).2.err = some e) :
    (BlockServerRemote.Get client id ctx).2.buf = none ∧
    (BlockServerRemote.Get client id ctx).2.key = BlockCryptKeyServerHalf.zero := by
  rcases hc : client.getBlock { blockHash := id.String, chargedTo := ctx.GetWriter }
    with e2 | res
  · constructor <;> simp [BlockServerRemote.Get, hc]
  · rcases h2 : hexDecodeString res.blockKey with e2 | kbuf
    · constructor <;> simp [BlockServerRemote.Get, hc, h2]
    · exfalso
      rw [show (BlockServerRemote.Get client id ctx).2.err = none by
        simp [BlockServerRemote.Get, hc, h2]] at h
      exact Option.noConfusion h

theorem C10_no_partial_result_witness :
    (BlockServerRemote.Get sampleClient sampleId sampleCtx).2.buf = none ∧
    (BlockServerRemote.Get sampleClient sampleId sampleCtx).2.key =
      BlockCryptKeyServerHalf.zero :=
  C10_no_partial_result sampleClient sampleId sampleCtx Err.notFound rfl

/-- C2 counterexample: with the metadata address absent (the local MD
deployment is selected) but a block address present, `makeBlockServer`
still constructs a remote block client. -/
theorem C2_counterexample :
    useLocalMDServer { mdServerAddr := "", bServerAddr := "bserver.example:443" } = true ∧
    makeMDServer { mdServerAddr := "", bServerAddr := "bserver.example:443" } none =
      MDServerChoice.memory ∧
    makeBlockServer { mdServerAddr := "", bServerAddr := "bserver.example:443" } none =
      BlockServerChoice.remote "bserver.example:443" := by
  refine ⟨rfl, rfl, ?_⟩
  simp only [makeBlockServer]
  decide

/-- C2 (amended): when the metadata address is absent a local (in-memory or
on-disk) metadata deployment is selected; block storage is selected
independently by the block-service address — local exactly when that
address is also absent, remote at that address otherwise. -/
theorem C2_local_selection (env : Env) (dir : Option String)
    (hmd : env.mdServerAddr.length = 0) :
    (dir = none →
      makeMDServer env dir = MDServerChoice.memory ∧
      (env.bServerAddr.length = 0 → makeBlockServer env dir = BlockServerChoice.memory)) ∧
    (∀ d, dir = some d →
      makeMDServer env dir = MDServerChoice.localDisk (filepathJoin d "kbfs_handles")
        (filepathJoin d "kbfs_md") (filepathJoin d "kbfs_revisions") ∧
      (env.bServerAddr.length = 0 →
        makeBlockServer env dir = BlockServerChoice.localDisk (filepathJoin d "kbfs_block"))) ∧
    (env.bServerAddr.length ≠ 0 →
      makeBlockServer env dir = BlockServerChoice.remote env.bServerAddr) := by
  have hlocal : useLocalMDServer env = true := by
    simp [useLocalMDServer, getMDServerAddr, hmd]
  refine ⟨?_, ?_, ?_⟩
  · rintro rfl
    exact ⟨rfl, fun hb => by simp [makeBlockServer, hb]⟩
  · rintro d rfl
    constructor
    · simp [makeMDServer, hlocal]
    · intro hb
      simp [makeBlockServer, hb]
  · intro hb
    simp [makeBlockServer, hb]

theorem C2_local_selection_witness :
    makeMDServer { mdServerAddr := "", bServerAddr := "" } (some "root") =
      MDServerChoice.localDisk (filepathJoin "root" "kbfs_handles")
        (filepathJoin "root" "kbfs_md") (filepathJoin "root" "kbfs_revisions") ∧
    makeBlockServer { mdServerAddr := "", bServerAddr := "" } (some "root") =
      BlockServerChoice.localDisk (filepathJoin "root" "kbfs_block") := by
  have h := (C2_local_selection { mdServerAddr := "", bServerAddr := "" }
    (some "root") (by decide)).2.1 "root" rfl
  exact ⟨h.1, h.2 (by decide)⟩

end Libkbfs
